import Mathlib

/-!
Verification development for the ironbar event bridge.

Shallow embedding of the bridge/client logic from:
- src/clients/compositor/sway.rs (listener registry, subscription task
  controller, event dispatcher, workspace state projector)
- src/clients/networkmanager.rs (pure network-state decision function)
- src/modules/networkmanager.rs (network-state decision inside
  get_network_state)

Callbacks are modelled as opaque identifiers (Nat); tasks are modelled by
identifiers and an action trace (spawn / terminate); external library types
(swayipc event enums) are modelled as closed inductives carrying the fields
the code reads. Rust panics (expect / todo) are modelled as Option none;
Rust Result is modelled as Except.
-/

namespace Ironbar

/-- The swayipc EventType enum: the kind tag used as a subscription and
filter key. Includes Output, which the swayipc library defines but
sway.rs never handles. -/
inductive EventType where
  | Workspace
  | Output
  | Mode
  | Window
  | BarConfigUpdate
  | Binding
  | Shutdown
  | Tick
  | BarStateUpdate
  | Input
  deriving DecidableEq, Repr

/-- The swayipc WorkspaceChange enum: the `change` field of a raw
workspace event. -/
inductive WorkspaceChange where
  | Init
  | Empty
  | Focus
  | Move
  | Rename
  | Urgent
  | Reload
  deriving DecidableEq, Repr

/-- The fields of a swayipc Workspace node that the conversion in
sway.rs (lines 165-175, 190-199) reads. -/
structure SwayWorkspace where
  id : Int
  name : String
  output : String
  focused : Bool
  visible : Bool
  deriving DecidableEq, Repr

/-- The swayipc WorkspaceEvent payload: a change kind plus optional
current and old workspaces. -/
structure WorkspaceEvent where
  change : WorkspaceChange
  current : Option SwayWorkspace
  old : Option SwayWorkspace
  deriving DecidableEq, Repr

/-- The swayipc Event enum, one variant per raw event payload kind.
Only the workspace variant's payload is modelled (it is the only payload
the code under verification inspects); the output variant is the variant
sway.rs's classifier does not list. -/
inductive Event where
  | workspace (e : WorkspaceEvent)
  | mode
  | window
  | barConfigUpdate
  | binding
  | shutdown
  | tick
  | barStateUpdate
  | input
  | output
  deriving DecidableEq, Repr

/-- Modelled from the spec: the domain Visibility value attached to a
workspace ("focused", "visible", or hidden); its definition lives in
src/clients/compositor/mod.rs which is not among the provided sources.
The constructors mirror the Visibility::focused() / Visibility::visible()
/ Visibility::Hidden calls in sway.rs. -/
inductive Visibility where
  | Hidden
  | Visible (focused : Bool)
  deriving DecidableEq, Repr

/-- Visibility::focused() constructor used at sway.rs line 193. -/
def Visibility.mkFocused : Visibility := Visibility.Visible true

/-- Visibility::visible() constructor used at sway.rs line 195. -/
def Visibility.mkVisible : Visibility := Visibility.Visible false

/-- Modelled from the spec: the domain Workspace value (id, name, monitor,
visibility); its definition lives in src/clients/compositor/mod.rs which
is not among the provided sources. The fields mirror the struct literal
built in sway.rs lines 169-174. -/
structure Workspace where
  id : Int
  name : String
  monitor : String
  visibility : Visibility
  deriving DecidableEq, Repr

/-- Modelled from the spec: the domain WorkspaceUpdate delta type
(Init snapshot, Add, Remove-by-id, Move, Focus with old/new, Unknown);
its definition lives in src/clients/compositor/mod.rs which is not among
the provided sources. The constructors mirror the variants constructed in
sway.rs lines 202-221 and 133-134. -/
inductive WorkspaceUpdate where
  | Init (workspaces : List Workspace)
  | Add (workspace : Workspace)
  | Remove (id : Int)
  | Move (workspace : Workspace)
  | Focus (old : Option Workspace) (new : Workspace)
  | Unknown
  deriving DecidableEq, Repr

/-- From<&swayipc Workspace> for Visibility (sway.rs lines 190-199):
focused wins, then visible, else Hidden. -/
def visibilityFromSway (w : SwayWorkspace) : Visibility :=
  if w.focused then Visibility.mkFocused
  else if w.visible then Visibility.mkVisible
  else Visibility.Hidden

/-- From<swayipc Workspace> for Workspace (sway.rs lines 165-175). -/
def workspaceFromSway (w : SwayWorkspace) : Workspace :=
  { id := w.id
    name := w.name
    monitor := w.output
    visibility := visibilityFromSway w }

/-- From<WorkspaceEvent> for WorkspaceUpdate (sway.rs lines 202-221).
The Rust code calls .expect("Missing current workspace") on the `current`
field in the Init, Empty, Focus and Move arms; that panic is modelled as
`none`. The wildcard arm maps every other change kind to Unknown. -/
def workspaceUpdateFrom (event : WorkspaceEvent) : Option WorkspaceUpdate :=
  match event.change with
  | WorkspaceChange.Init =>
      event.current.map fun w => WorkspaceUpdate.Add (workspaceFromSway w)
  | WorkspaceChange.Empty =>
      event.current.map fun w => WorkspaceUpdate.Remove w.id
  | WorkspaceChange.Focus =>
      event.current.map fun w =>
        WorkspaceUpdate.Focus (event.old.map workspaceFromSway) (workspaceFromSway w)
  | WorkspaceChange.Move =>
      event.current.map fun w => WorkspaceUpdate.Move (workspaceFromSway w)
  | _ => some WorkspaceUpdate.Unknown

/-- sway_event_to_event_type (sway.rs lines 223-236): classifies a raw
event into its EventType. The Rust wildcard arm is `todo!()`, a panic,
modelled as `none`; it is reached exactly by the output variant, which the
match does not list. -/
def sway_event_to_event_type (event : Event) : Option EventType :=
  match event with
  | Event.workspace _ => some EventType.Workspace
  | Event.mode => some EventType.Mode
  | Event.window => some EventType.Window
  | Event.barConfigUpdate => some EventType.BarConfigUpdate
  | Event.binding => some EventType.Binding
  | Event.shutdown => some EventType.Shutdown
  | Event.tick => some EventType.Tick
  | Event.barStateUpdate => some EventType.BarStateUpdate
  | Event.input => some EventType.Input
  | Event.output => none

/-- ClientState enum from src/clients/networkmanager.rs lines 30-38. -/
inductive ClientState where
  | WiredConnected
  | WifiConnected
  | CellularConnected
  | VpnConnected
  | WifiDisconnected
  | Offline
  | Unknown
  deriving DecidableEq, Repr

/-- determine_state from src/clients/networkmanager.rs lines 106-126:
the pure network-state decision function. The Rust `match` on the
connection-type string is rendered as a chain of string-equality tests in
the same order. -/
def determine_state (primary_connection : String)
    (primary_connection_type : String) (wireless_enabled : Bool) : ClientState :=
  if primary_connection = "/" then
    if wireless_enabled then ClientState.WifiDisconnected else ClientState.Offline
  else if primary_connection_type = "802-3-ethernet" ∨ primary_connection_type = "adsl"
      ∨ primary_connection_type = "pppoe" then
    ClientState.WiredConnected
  else if primary_connection_type = "802-11-olpc-mesh"
      ∨ primary_connection_type = "802-11-wireless"
      ∨ primary_connection_type = "wifi-p2p" then
    ClientState.WifiConnected
  else if primary_connection_type = "cdma" ∨ primary_connection_type = "gsm"
      ∨ primary_connection_type = "wimax" then
    ClientState.CellularConnected
  else if primary_connection_type = "vpn" ∨ primary_connection_type = "wireguard" then
    ClientState.VpnConnected
  else
    ClientState.Unknown

/-- The connection-type strings determine_state recognizes (every arm of
its match other than the wildcard). -/
def recognizedTypes : List String :=
  ["802-3-ethernet", "adsl", "pppoe",
   "802-11-olpc-mesh", "802-11-wireless", "wifi-p2p",
   "cdma", "gsm", "wimax",
   "vpn", "wireguard"]

/-- NetworkManagerState enum from src/modules/networkmanager.rs
lines 31-39. -/
inductive NetworkManagerState where
  | Cellular
  | Offline
  | Unknown
  | Vpn
  | Wired
  | Wireless
  | WirelessDisconnected
  deriving DecidableEq, Repr

/-- The decision logic inside get_network_state
(src/modules/networkmanager.rs lines 128-169), as a function of the three
property values it reads: primary connection path, primary connection
type, wireless-enabled flag. The Rust `match` arms are rendered in the
same order. -/
def get_network_state (primary_connection_path : String)
    (primary_connection_type : String) (wireless_enabled : Bool) :
    NetworkManagerState :=
  if primary_connection_path ≠ "/" then
    if primary_connection_type = "802-11-olpc-mesh" then NetworkManagerState.Wireless
    else if primary_connection_type = "802-11-wireless" then NetworkManagerState.Wireless
    else if primary_connection_type = "802-3-ethernet" then NetworkManagerState.Wired
    else if primary_connection_type = "adsl" then NetworkManagerState.Wired
    else if primary_connection_type = "cdma" then NetworkManagerState.Cellular
    else if primary_connection_type = "gsm" then NetworkManagerState.Cellular
    else if primary_connection_type = "pppoe" then NetworkManagerState.Wired
    else if primary_connection_type = "vpn" then NetworkManagerState.Vpn
    else if primary_connection_type = "wifi-p2p" then NetworkManagerState.Wireless
    else if primary_connection_type = "wimax" then NetworkManagerState.Cellular
    else if primary_connection_type = "wireguard" then NetworkManagerState.Vpn
    else if primary_connection_type = "wpan" then NetworkManagerState.Wireless
    else NetworkManagerState.Unknown
  else
    if wireless_enabled then NetworkManagerState.WirelessDisconnected
    else NetworkManagerState.Offline

/-- The identification between the two state enums given in the claim:
WiredConnected=Wired, WifiConnected=Wireless, CellularConnected=Cellular,
VpnConnected=Vpn, WifiDisconnected=WirelessDisconnected, Offline=Offline,
Unknown=Unknown. -/
def clientStateToModule : ClientState → NetworkManagerState
  | ClientState.WiredConnected => NetworkManagerState.Wired
  | ClientState.WifiConnected => NetworkManagerState.Wireless
  | ClientState.CellularConnected => NetworkManagerState.Cellular
  | ClientState.VpnConnected => NetworkManagerState.Vpn
  | ClientState.WifiDisconnected => NetworkManagerState.WirelessDisconnected
  | ClientState.Offline => NetworkManagerState.Offline
  | ClientState.Unknown => NetworkManagerState.Unknown

/-- A registered listener entry: an event kind plus a callback, the
callback modelled as an opaque identifier (sway.rs line 17:
`listeners: Arc<Vec<(EventType, Box<SyncFn<Event>>)>>`). -/
abbrev ListenerEntry := EventType × Nat

/-- TaskState from sway.rs lines 13-18: the optional handle of the
running Dispatcher task (modelled by its task id) plus the listener
registry. -/
structure TaskState where
  join_handle : Option Nat
  listeners : List ListenerEntry
  deriving DecidableEq, Repr

/-- The initial TaskState built in Client::new (sway.rs lines 42-45):
no running task, empty registry. -/
def initTaskState : TaskState :=
  { join_handle := none, listeners := [] }

/-- An observable task-lifecycle action of the controller: spawning a
Dispatcher task, or a task reaching full termination (the
`handle.abort(); let _ = handle.await;` pair at sway.rs lines 75-76). -/
inductive TaskAction where
  | spawn (id : Nat)
  | terminate (id : Nat)
  deriving DecidableEq, Repr

/-- One call to add_listener_type (sway.rs lines 63-112), as a function
of the current TaskState. `shared` models whether the listeners Arc is
still shared when `Arc::get_mut` runs (line 81); `newId` is the id of the
task that would be spawned. Returns the new TaskState, the trace of task
actions performed, and either the kind list passed to the transport's
subscribe call (line 89, computed after the push at line 84) or the error
from line 82. On the error path the registry is untouched and no task is
spawned, but the old task has already been aborted and awaited. -/
def add_listener_type (st : TaskState) (shared : Bool) (event_type : EventType)
    (f : Nat) (newId : Nat) :
    TaskState × List TaskAction × Except String (List EventType) :=
  let aborts : List TaskAction :=
    match st.join_handle with
    | some t => [TaskAction.terminate t]
    | none => []
  if shared then
    ({ join_handle := none, listeners := st.listeners }, aborts,
      Except.error "Failed to get mutable reference to listeners")
  else
    let listeners' := st.listeners ++ [(event_type, f)]
    let event_types := listeners'.map Prod.fst
    ({ join_handle := some newId, listeners := listeners' },
      aborts ++ [TaskAction.spawn newId],
      Except.ok event_types)

/-- Runs a sequence of successful add_listener_type calls (the Arc never
shared, fresh task ids counting up), collecting the full task-action
trace and, per call, the kind list passed to that call's subscribe. -/
def runRegs : List ListenerEntry → TaskState → Nat →
    TaskState × List TaskAction × List (List EventType)
  | [], st, _ => (st, [], [])
  | (ty, f) :: rest, st, fresh =>
    let step := add_listener_type st false ty f fresh
    let next := runRegs rest step.1 (fresh + 1)
    (next.1, step.2.1 ++ next.2.1,
      (match step.2.2 with
       | Except.ok ets => [ets]
       | Except.error _ => []) ++ next.2.2)

/-- The Dispatcher's per-event callback loop (sway.rs lines 98-103):
walk the registry in order and invoke every callback stored under the
event's classified kind. Returns the callback ids in invocation order. -/
def dispatchEvent : List ListenerEntry → EventType → List Nat
  | [], _ => []
  | (t, f) :: rest, ty =>
    if t = ty then f :: dispatchEvent rest ty else dispatchEvent rest ty

/-- One Dispatcher loop iteration on a raw event: classify it
(sway.rs line 98) and run the callback loop; classification panics
(todo) propagate as none. -/
def dispatchRaw (listeners : List ListenerEntry) (event : Event) :
    Option (List Nat) :=
  (sway_event_to_event_type event).map (dispatchEvent listeners)

/-- The stream of updates produced by the workspace listener callback
registered at sway.rs lines 140-143: each raw workspace event is
converted by workspaceUpdateFrom and sent; a conversion panic kills the
callback (and with it the Dispatcher task), so no later update is
delivered. -/
def listenerUpdates : List WorkspaceEvent → List WorkspaceUpdate
  | [] => []
  | e :: rest =>
    match workspaceUpdateFrom e with
    | some u => u :: listenerUpdates rest
    | none => []

/-- subscribe_workspace_change (sway.rs lines 124-149), as a function of
the workspace list returned by the synchronous get_workspaces query
(line 131) and the raw workspace events subsequently delivered to the
registered listener: the messages sent on the broadcast channel, in
order. The Init built at lines 133-134 is sent (line 136) before the
listener is registered (line 140). -/
def subscribe_workspace_change (workspaces : List SwayWorkspace)
    (events : List WorkspaceEvent) : List WorkspaceUpdate :=
  WorkspaceUpdate.Init (workspaces.map workspaceFromSway) :: listenerUpdates events

/-- Applies one task action to the set of live task ids. -/
def applyAction (s : Finset Nat) : TaskAction → Finset Nat
  | TaskAction.spawn i => insert i s
  | TaskAction.terminate i => s.erase i

/-- The set of live task ids after a trace, starting from `s`. -/
def liveAfter (s : Finset Nat) (l : List TaskAction) : Finset Nat :=
  l.foldl applyAction s

/-- Checks that at every point of the trace (before each action and at
the end) at most one task is live. -/
def liveBounded : Finset Nat → List TaskAction → Bool
  | s, [] => decide (s.card ≤ 1)
  | s, a :: rest => decide (s.card ≤ 1) && liveBounded (applyAction s a) rest

/-- Checks that every spawn in the trace happens while no task is live,
i.e. only after the previously live task (if any) has fully terminated. -/
def spawnWhenEmpty : Finset Nat → List TaskAction → Bool
  | _, [] => true
  | s, TaskAction.spawn i :: rest =>
    decide (s = ∅) && spawnWhenEmpty (applyAction s (TaskAction.spawn i)) rest
  | s, TaskAction.terminate i :: rest =>
    spawnWhenEmpty (applyAction s (TaskAction.terminate i)) rest

/-- The set of live tasks a TaskState accounts for: the stored handle,
if any. -/
def handleSet (st : TaskState) : Finset Nat :=
  match st.join_handle with
  | some t => {t}
  | none => ∅

/-- A concrete sway workspace used to instantiate universally quantified
results. -/
def sampleSwayWorkspace : SwayWorkspace :=
  { id := 1, name := "1", output := "eDP-1", focused := true, visible := true }

/-- A concrete raw workspace event of Init kind with a current
workspace. -/
def sampleInitEvent : WorkspaceEvent :=
  { change := WorkspaceChange.Init, current := some sampleSwayWorkspace, old := none }

/-- The Dispatcher callback loop equals a filter of the registry by the
classified kind followed by projecting the callbacks: exactly the
matching entries, in registration order. -/
theorem dispatchEvent_eq_filter (l : List ListenerEntry) (ty : EventType) :
    dispatchEvent l ty = (l.filter fun p => decide (p.1 = ty)).map Prod.snd := by
  induction l with
  | nil => rfl
  | cons hd tl ih =>
    obtain ⟨t, f⟩ := hd
    by_cases h : t = ty <;> simp [dispatchEvent, List.filter_cons, h, ih]

/-- Claim C2: for every raw event read by the Dispatcher and every
registry state, the callbacks invoked for that event are exactly the
registry entries whose kind equals the event's classified kind, in
registration order; non-matching entries are not invoked. -/
theorem C2_dispatch_filter_order (listeners : List ListenerEntry) (e : Event)
    (ty : EventType) (h : sway_event_to_event_type e = some ty) :
    dispatchRaw listeners e =
      some ((listeners.filter fun p => decide (p.1 = ty)).map Prod.snd) := by
  simp [dispatchRaw, h, dispatchEvent_eq_filter]

/-- Witness for C2 at a concrete registry and event: of three entries,
the two Workspace entries fire in registration order and the Mode entry
does not. -/
theorem C2_dispatch_filter_order_witness :
    dispatchRaw [(EventType.Workspace, 0), (EventType.Mode, 1), (EventType.Workspace, 2)]
      (Event.workspace sampleInitEvent) = some [0, 2] :=
  (C2_dispatch_filter_order
      [(EventType.Workspace, 0), (EventType.Mode, 1), (EventType.Workspace, 2)]
      (Event.workspace sampleInitEvent) EventType.Workspace rfl).trans (by decide)

/-- Claim C3: every call to subscribe_workspace_change delivers, as the
first message on the returned receive end, an Init update whose workspace
list is the synchronous get_workspaces query result converted
element-wise, before any incremental update. -/
theorem C3_first_message_init (workspaces : List SwayWorkspace)
    (events : List WorkspaceEvent) :
    (subscribe_workspace_change workspaces events).head? =
      some (WorkspaceUpdate.Init (workspaces.map workspaceFromSway)) ∧
    subscribe_workspace_change workspaces events =
      WorkspaceUpdate.Init (workspaces.map workspaceFromSway) :: listenerUpdates events :=
  ⟨rfl, rfl⟩

/-- Claim C4: determine_state matches the spec's decision table: path "/"
yields WifiDisconnected or Offline by the wireless flag; a non-"/" path
maps the connection type through the category table with Unknown as the
default; the four concrete spec examples hold. -/
theorem C4_determine_state_decision_table :
    (∀ t (we : Bool), determine_state "/" t we =
      (if we then ClientState.WifiDisconnected else ClientState.Offline)) ∧
    (∀ pc t (we : Bool), pc ≠ "/" → t ∉ recognizedTypes →
      determine_state pc t we = ClientState.Unknown) ∧
    determine_state "/" "" true = ClientState.WifiDisconnected ∧
    determine_state "/" "" false = ClientState.Offline ∧
    determine_state "/path" "802-3-ethernet" false = ClientState.WiredConnected ∧
    determine_state "/path" "bluetooth" true = ClientState.Unknown := by
  refine ⟨fun t we => ?_, fun pc t we hpc ht => ?_, by decide, by decide, by decide, by decide⟩
  · simp [determine_state]
  · simp only [recognizedTypes, List.mem_cons, List.not_mem_nil, or_false, not_or] at ht
    obtain ⟨h1, h2, h3, h4, h5, h6, h7, h8, h9, h10, h11⟩ := ht
    simp [determine_state, hpc, h1, h2, h3, h4, h5, h6, h7, h8, h9, h10, h11]

/-- Witness for C4 at a concrete unrecognized connection type. -/
theorem C4_determine_state_decision_table_witness :
    determine_state "/nm/act/1" "bluetooth" false = ClientState.Unknown :=
  C4_determine_state_decision_table.2.1 "/nm/act/1" "bluetooth" false
    (by decide) (by decide)

/-- Claim C5: the raw-to-domain workspace event conversion maps Init to
Add of the current workspace, Empty to Remove of its id, Focus to Focus
with both endpoints, Move to Move, and every other change kind to
Unknown. -/
theorem C5_workspace_event_mapping (e : WorkspaceEvent) :
    (∀ w, e.current = some w →
      (e.change = WorkspaceChange.Init →
        workspaceUpdateFrom e = some (WorkspaceUpdate.Add (workspaceFromSway w))) ∧
      (e.change = WorkspaceChange.Empty →
        workspaceUpdateFrom e = some (WorkspaceUpdate.Remove w.id)) ∧
      (e.change = WorkspaceChange.Focus →
        workspaceUpdateFrom e =
          some (WorkspaceUpdate.Focus (e.old.map workspaceFromSway) (workspaceFromSway w))) ∧
      (e.change = WorkspaceChange.Move →
        workspaceUpdateFrom e = some (WorkspaceUpdate.Move (workspaceFromSway w)))) ∧
    (e.change ≠ WorkspaceChange.Init → e.change ≠ WorkspaceChange.Empty →
      e.change ≠ WorkspaceChange.Focus → e.change ≠ WorkspaceChange.Move →
      workspaceUpdateFrom e = some WorkspaceUpdate.Unknown) := by
  refine ⟨fun w h => ?_, fun h1 h2 h3 h4 => ?_⟩
  · cases hc : e.change <;> simp [workspaceUpdateFrom, hc, h]
  · cases hc : e.change <;> simp_all [workspaceUpdateFrom]

/-- Witness for C5: an Init-kind event with a present current workspace
converts to Add of that workspace. -/
theorem C5_workspace_event_mapping_witness :
    workspaceUpdateFrom sampleInitEvent =
      some (WorkspaceUpdate.Add (workspaceFromSway sampleSwayWorkspace)) :=
  ((C5_workspace_event_mapping sampleInitEvent).1 sampleSwayWorkspace rfl).1 rfl

/-- Counterexample for C6: the conversion fails (the Rust code panics via
expect) on an Init-kind event whose current-workspace field is absent, so
it is not total over all raw workspace events. -/
theorem C6_counterexample :
    workspaceUpdateFrom { change := WorkspaceChange.Init, current := none, old := none } =
      none := rfl

/-- Amended claim C6: the conversion never fails for events with an
unrecognized change kind, and fails (panics) exactly when the change kind
is one of Init, Empty, Focus or Move and the current-workspace field is
absent. -/
theorem C6_conversion_totality_amended (e : WorkspaceEvent) :
    workspaceUpdateFrom e = none ↔
      (e.change = WorkspaceChange.Init ∨ e.change = WorkspaceChange.Empty ∨
        e.change = WorkspaceChange.Focus ∨ e.change = WorkspaceChange.Move) ∧
      e.current = none := by
  cases hc : e.change <;> cases hcur : e.current <;>
    simp [workspaceUpdateFrom, hc, hcur]

/-- Counterexample for C7: the classification function fails (the Rust
wildcard arm is todo, a panic) on the Output event variant, which the
match does not list. -/
theorem C7_counterexample : sway_event_to_event_type Event.output = none := rfl

/-- Amended claim C7: the classification function is pure and total on
the nine explicitly listed raw event variants, returning an EventType for
each; on any other variant (Output) it panics. -/
theorem C7_classification_amended (e : Event) :
    (sway_event_to_event_type e).isSome = true ↔ e ≠ Event.output := by
  cases e <;> simp [sway_event_to_event_type]

/-- Claim C8: when exclusive access to the listener registry cannot be
obtained (the Arc is still shared after aborting the prior task),
add_listener_type returns the error rather than panicking, and the
registry contents are unchanged. -/
theorem C8_shared_access_error (st : TaskState) (event_type : EventType) (f newId : Nat) :
    (add_listener_type st true event_type f newId).2.2 =
      Except.error "Failed to get mutable reference to listeners" ∧
    (add_listener_type st true event_type f newId).1.listeners = st.listeners :=
  ⟨rfl, rfl⟩

/-- When the primary connection path is not "/", determine_state depends
only on the connection type: any non-"/" path gives the same result as
the fixed non-"/" path "/x". -/
theorem determine_state_not_root (pc t : String) (we : Bool) (hpc : pc ≠ "/") :
    determine_state pc t we = determine_state "/x" t we := by
  unfold determine_state
  rw [if_neg hpc, if_neg (by decide : ¬("/x" : String) = "/")]

/-- When the primary connection path is not "/", get_network_state
depends only on the connection type: any non-"/" path gives the same
result as the fixed non-"/" path "/x". -/
theorem get_network_state_not_root (pc t : String) (we : Bool) (hpc : pc ≠ "/") :
    get_network_state pc t we = get_network_state "/x" t we := by
  unfold get_network_state
  rw [if_pos hpc, if_pos (by decide : ("/x" : String) ≠ "/")]

/-- Counterexample for C10: at a non-"/" path with connection type
"wpan" the module's get_network_state yields Wireless while the client's
determine_state yields Unknown, so the two decision procedures are not
equivalent under the claimed identification. -/
theorem C10_counterexample :
    clientStateToModule (determine_state "/act/1" "wpan" false) ≠
      get_network_state "/act/1" "wpan" false := by decide

/-- Amended claim C10: the two network-state decision procedures agree,
under the claimed identification, on every triple whose connection type
is not "wpan". -/
theorem C10_network_state_agreement (pc t : String) (we : Bool) (h : t ≠ "wpan") :
    clientStateToModule (determine_state pc t we) = get_network_state pc t we := by
  by_cases hpc : pc = "/"
  · subst hpc
    cases we <;> simp [determine_state, get_network_state, clientStateToModule]
  · rw [determine_state_not_root pc t we hpc, get_network_state_not_root pc t we hpc]
    by_cases h1 : t = "802-3-ethernet"
    · subst h1; cases we <;> decide
    by_cases h2 : t = "adsl"
    · subst h2; cases we <;> decide
    by_cases h3 : t = "pppoe"
    · subst h3; cases we <;> decide
    by_cases h4 : t = "802-11-olpc-mesh"
    · subst h4; cases we <;> decide
    by_cases h5 : t = "802-11-wireless"
    · subst h5; cases we <;> decide
    by_cases h6 : t = "wifi-p2p"
    · subst h6; cases we <;> decide
    by_cases h7 : t = "cdma"
    · subst h7; cases we <;> decide
    by_cases h8 : t = "gsm"
    · subst h8; cases we <;> decide
    by_cases h9 : t = "wimax"
    · subst h9; cases we <;> decide
    by_cases h10 : t = "vpn"
    · subst h10; cases we <;> decide
    by_cases h11 : t = "wireguard"
    · subst h11; cases we <;> decide
    simp [determine_state, get_network_state, clientStateToModule,
      h, h1, h2, h3, h4, h5, h6, h7, h8, h9, h10, h11]

/-- Witness for C10's amended claim at a concrete wired triple. -/
theorem C10_network_state_agreement_witness :
    clientStateToModule (determine_state "/act/2" "802-3-ethernet" true) =
      get_network_state "/act/2" "802-3-ethernet" true :=
  C10_network_state_agreement "/act/2" "802-3-ethernet" true (by decide)

/-- Unfolding one successful add_listener_type call (the Arc is not
shared): the old handle (if any) is aborted and awaited, the entry is
appended, the subscribe kind list is the full registry's kinds, and the
new task handle is stored. -/
theorem add_listener_type_not_shared (st : TaskState) (ty : EventType) (f newId : Nat) :
    add_listener_type st false ty f newId =
      ({ join_handle := some newId, listeners := st.listeners ++ [(ty, f)] },
        (match st.join_handle with
          | some t => [TaskAction.terminate t]
          | none => []) ++ [TaskAction.spawn newId],
        Except.ok ((st.listeners ++ [(ty, f)]).map Prod.fst)) := rfl

/-- The kind list passed to the i-th subscribe call of a registration
sequence is the kinds of the initial registry plus the first i+1
registrations, in order. -/
theorem runRegs_subscribe_sets (regs : List ListenerEntry) :
    ∀ (st : TaskState) (fresh i : Nat), i < regs.length →
      (runRegs regs st fresh).2.2[i]? =
        some ((st.listeners ++ regs.take (i + 1)).map Prod.fst) := by
  induction regs with
  | nil => intro st fresh i hi; exact absurd hi (by simp)
  | cons hd tl ih =>
    intro st fresh i hi
    obtain ⟨ty, f⟩ := hd
    cases i with
    | zero =>
      simp [runRegs, add_listener_type_not_shared]
    | succ n =>
      have hn : n < tl.length := by simpa using hi
      have := ih { join_handle := some fresh, listeners := st.listeners ++ [(ty, f)] }
        (fresh + 1) n hn
      simp only [runRegs, add_listener_type_not_shared] at this ⊢
      simpa [List.append_assoc] using this

/-- Claim C1: for every registration sequence with distinct kinds, the
kind set passed to the transport's subscribe call of each
add_listener_type call equals (as a set) the kinds of all entries ever
appended to the registry up to that call. -/
theorem C1_subscribe_kinds_union (regs : List ListenerEntry)
    (hnd : (regs.map Prod.fst).Nodup) (i : Nat) (hi : i < regs.length) :
    ∃ kinds, (runRegs regs initTaskState 1).2.2[i]? = some kinds ∧
      ∀ k : EventType, k ∈ kinds ↔ k ∈ (regs.take (i + 1)).map Prod.fst := by
  refine ⟨(regs.take (i + 1)).map Prod.fst, ?_, fun k => Iff.rfl⟩
  simpa [initTaskState] using runRegs_subscribe_sets regs initTaskState 1 i hi

/-- Witness for C1: two registrations with distinct kinds; the second
subscribe call carries both kinds. -/
theorem C1_subscribe_kinds_union_witness :
    ∃ kinds,
      (runRegs [(EventType.Workspace, 0), (EventType.Mode, 1)] initTaskState 1).2.2[1]? =
        some kinds ∧
      ∀ k : EventType, k ∈ kinds ↔
        k ∈ ([(EventType.Workspace, 0), (EventType.Mode, 1)].take 2).map Prod.fst :=
  C1_subscribe_kinds_union [(EventType.Workspace, 0), (EventType.Mode, 1)]
    (by decide) 1 (by decide)

/-- liveAfter distributes over trace concatenation. -/
theorem liveAfter_append (s : Finset Nat) (l1 l2 : List TaskAction) :
    liveAfter s (l1 ++ l2) = liveAfter (liveAfter s l1) l2 :=
  List.foldl_append _ _ _ _

/-- liveBounded composes over trace concatenation. -/
theorem liveBounded_append (s : Finset Nat) (l1 l2 : List TaskAction)
    (h1 : liveBounded s l1 = true) (h2 : liveBounded (liveAfter s l1) l2 = true) :
    liveBounded s (l1 ++ l2) = true := by
  induction l1 generalizing s with
  | nil => simpa [liveAfter] using h2
  | cons a l1 ih =>
    rw [List.cons_append]
    simp only [liveBounded, Bool.and_eq_true] at h1 ⊢
    exact ⟨h1.1, ih _ h1.2 (by simpa [liveAfter] using h2)⟩

/-- spawnWhenEmpty on a cons, uniformly over the action. -/
theorem spawnWhenEmpty_cons (s : Finset Nat) (a : TaskAction) (l : List TaskAction) :
    spawnWhenEmpty s (a :: l) =
      ((match a with
        | TaskAction.spawn _ => decide (s = ∅)
        | TaskAction.terminate _ => true) && spawnWhenEmpty (applyAction s a) l) := by
  cases a <;> simp [spawnWhenEmpty]

/-- spawnWhenEmpty composes over trace concatenation. -/
theorem spawnWhenEmpty_append (s : Finset Nat) (l1 l2 : List TaskAction)
    (h1 : spawnWhenEmpty s l1 = true) (h2 : spawnWhenEmpty (liveAfter s l1) l2 = true) :
    spawnWhenEmpty s (l1 ++ l2) = true := by
  induction l1 generalizing s with
  | nil => simpa [liveAfter] using h2
  | cons a l1 ih =>
    rw [List.cons_append, spawnWhenEmpty_cons]
    rw [spawnWhenEmpty_cons] at h1
    simp only [Bool.and_eq_true] at h1 ⊢
    exact ⟨h1.1, ih _ h1.2 (by simpa [liveAfter] using h2)⟩

/-- Invariant of the controller: starting from a state whose live-task
set is exactly its stored handle, every registration sequence produces a
trace on which at most one task is ever live and every spawn happens only
after the previously live task has fully terminated. -/
theorem runRegs_trace_invariant (regs : List ListenerEntry) :
    ∀ (st : TaskState) (fresh : Nat),
      liveBounded (handleSet st) (runRegs regs st fresh).2.1 = true ∧
      spawnWhenEmpty (handleSet st) (runRegs regs st fresh).2.1 = true := by
  induction regs with
  | nil =>
    intro st fresh
    refine ⟨?_, rfl⟩
    cases h : st.join_handle <;> simp [handleSet, h, liveBounded, runRegs]
  | cons hd tl ih =>
    intro st fresh
    obtain ⟨ty, f⟩ := hd
    have hstep : (runRegs ((ty, f) :: tl) st fresh).2.1 =
        ((match st.join_handle with
          | some t => [TaskAction.terminate t]
          | none => []) ++ [TaskAction.spawn fresh]) ++
        (runRegs tl { join_handle := some fresh, listeners := st.listeners ++ [(ty, f)] }
          (fresh + 1)).2.1 := by
      simp [runRegs, add_listener_type_not_shared]
    obtain ⟨ihb, ihs⟩ :=
      ih { join_handle := some fresh, listeners := st.listeners ++ [(ty, f)] } (fresh + 1)
    rw [hstep]
    cases h : st.join_handle with
    | none =>
      simp only [h]
      refine ⟨liveBounded_append _ _ _ ?_ ?_, spawnWhenEmpty_append _ _ _ ?_ ?_⟩
      · simp [handleSet, h, liveBounded, applyAction]
      · have hl : liveAfter (handleSet st) ([] ++ [TaskAction.spawn fresh]) =
            ({fresh} : Finset Nat) := by
          simp [handleSet, h, liveAfter, applyAction]
        rw [hl]
        simpa [handleSet] using ihb
      · simp [handleSet, h, spawnWhenEmpty, applyAction]
      · have hl : liveAfter (handleSet st) ([] ++ [TaskAction.spawn fresh]) =
            ({fresh} : Finset Nat) := by
          simp [handleSet, h, liveAfter, applyAction]
        rw [hl]
        simpa [handleSet] using ihs
    | some t =>
      simp only [h]
      refine ⟨liveBounded_append _ _ _ ?_ ?_, spawnWhenEmpty_append _ _ _ ?_ ?_⟩
      · simp [handleSet, h, liveBounded, applyAction, Finset.erase_singleton]
      · have hl : liveAfter (handleSet st)
            ([TaskAction.terminate t] ++ [TaskAction.spawn fresh]) =
            ({fresh} : Finset Nat) := by
          simp [handleSet, h, liveAfter, applyAction, Finset.erase_singleton]
        rw [hl]
        simpa [handleSet] using ihb
      · simp [handleSet, h, spawnWhenEmpty, applyAction, Finset.erase_singleton]
      · have hl : liveAfter (handleSet st)
            ([TaskAction.terminate t] ++ [TaskAction.spawn fresh]) =
            ({fresh} : Finset Nat) := by
          simp [handleSet, h, liveAfter, applyAction, Finset.erase_singleton]
        rw [hl]
        simpa [handleSet] using ihs

/-- Claim C9: over every sequence of add_listener_type calls, the
controller's task trace keeps at most one Dispatcher task live at every
point, and each new Dispatcher is spawned only after the previously
stored task has been cancelled and awaited to full termination. -/
theorem C9_single_dispatcher (regs : List ListenerEntry) :
    liveBounded ∅ (runRegs regs initTaskState 1).2.1 = true ∧
    spawnWhenEmpty ∅ (runRegs regs initTaskState 1).2.1 = true := by
  simpa [handleSet, initTaskState] using runRegs_trace_invariant regs initTaskState 1

end Ironbar
